import Mathlib

/-!
Verification development for the IMF World Economic Outlook RAG pipeline
(`src/imf_rag_system.py`, `src/simple_example.py`).

The Python class `IMF_RAG_System` is shallow-embedded as a Lean structure
`RagSystem` together with one Lean function per method.  Python exceptions are
embedded as an explicit error type `RagError` and fallible methods return
`Except RagError _`.  External collaborators whose code is not part of the
repository (the Chroma vector store, the RetrievalQA "stuff" chain, the
embedding provider and the language model) are modelled where needed, each with
a doc comment stating what is modelled and from where; similarity scores are
abstracted to integer-valued scoring functions.
-/

namespace IMFRag

/-- A retrieved document chunk: page text plus the page number carried in the
document metadata (`doc.page_content` / `doc.metadata["page"]` in the source). -/
structure Chunk where
  text : String
  page : Nat
  deriving Repr, DecidableEq

/-- Errors of the embedded program.  `genericException` models a plain Python
`Exception` (as raised at src/imf_rag_system.py line 160), `attributeError`
models a Python `AttributeError` from dereferencing `None`.  The remaining
constructors are the typed errors named by the specification's taxonomy (§7);
they are included so that statements can compare what the code actually raises
against what the specification claims it raises. -/
inductive RagError where
  | genericException (msg : String)
  | attributeError (msg : String)
  | invalidState
  | invalidArgument
  | embeddingModelMismatch
  | indexNotFound
  | embeddingFailure
  deriving Repr, DecidableEq

/-- An in-memory vector store: the stored chunks (in insertion order) plus the
identifier of the embedding model attached at construction time.  Embedding
vectors themselves are abstracted away; similarity is modelled by an abstract
scoring function where retrieval needs it. -/
structure Vectorstore where
  entries : List Chunk
  embedModelId : String
  deriving Repr, DecidableEq

/-- The durable contents of a persist location: the chunks written there and
the identifier of the embedding model that produced the stored vectors. -/
structure PersistedStore where
  builtModelId : String
  entries : List Chunk
  deriving Repr, DecidableEq

/-- The QA chain configured by `setup_qa_chain` (src/imf_rag_system.py lines
137-145): it holds the retriever (which wraps the vector store) and the
retriever's `k` from `search_kwargs`. -/
structure QAChain where
  retrieverStore : Vectorstore
  k : Nat
  deriving Repr, DecidableEq

/-- The state of an `IMF_RAG_System` object: `pdf_path`, `persist_directory`,
`vectorstore` and `qa_chain` exactly as assigned in `__init__`
(src/imf_rag_system.py lines 46-55); `llmModel` records the model string passed
to `ChatAnthropic`. -/
structure RagSystem where
  pdf_path : String
  persist_directory : String
  vectorstore : Option Vectorstore
  qa_chain : Option QAChain
  llmModel : String
  deriving Repr, DecidableEq

/-- The embedding model name hardcoded at src/imf_rag_system.py lines 84-86 and
102-104 (`HuggingFaceEmbeddings(model_name="all-MiniLM-L6-v2")`). -/
def configuredModelId : String := "all-MiniLM-L6-v2"

/-- Embeds `IMF_RAG_System.__init__` (src/imf_rag_system.py lines 38-57):
both `vectorstore` and `qa_chain` start out as `None`. -/
def mkSystem (pdf_path : String) (persist_directory : String) : RagSystem :=
  { pdf_path := pdf_path
    persist_directory := persist_directory
    vectorstore := none
    qa_chain := none
    llmModel := "claude-sonnet-4-20250514" }

/-- Models the external `Chroma` constructor as invoked at
src/imf_rag_system.py lines 106-109: it opens the collection persisted at the
location when one is present and creates an empty collection when the location
is absent; the caller-supplied embedding function is attached to the handle.
No stored-model-identifier validation of any kind is performed (the repository
stores no model identifier alongside the index and compares none on load). -/
def chromaOpen (loc : Option PersistedStore) (modelId : String) : Vectorstore :=
  match loc with
  | none => { entries := [], embedModelId := modelId }
  | some s => { entries := s.entries, embedModelId := modelId }

/-- Embeds `IMF_RAG_System.load_existing_vectorstore` (src/imf_rag_system.py
lines 96-111): builds the hardcoded embeddings object and unconditionally sets
`self.vectorstore` to a `Chroma` handle on `persist_directory`.  The method
contains no conditional raise of its own. -/
def load_existing_vectorstore (sys : RagSystem) (loc : Option PersistedStore) :
    Except RagError RagSystem :=
  .ok { sys with vectorstore := some (chromaOpen loc configuredModelId) }

/-- Embeds `IMF_RAG_System.setup_qa_chain` (src/imf_rag_system.py lines
113-147): it dereferences `self.vectorstore.as_retriever(...)` without any
`None` check, so in the Unindexed state the call is a Python `AttributeError`;
otherwise the chain is installed with the hardcoded `search_kwargs` value
`k = 3` (line 141). -/
def setup_qa_chain (sys : RagSystem) : Except RagError RagSystem :=
  match sys.vectorstore with
  | none => .error (.attributeError "NoneType object has no attribute as_retriever")
  | some vs => .ok { sys with qa_chain := some { retrieverStore := vs, k := 3 } }

/-- The relevance ordering used by retrieval: `a` ranks at least as high as `b`
for query `q` when its similarity score is at least `b`'s.  `sim` abstracts the
embedding-based similarity of the query text and a chunk text. -/
def simRel (sim : String → String → Int) (q : String) (a b : Chunk) : Prop :=
  sim q b.text ≤ sim q a.text

instance (sim : String → String → Int) (q : String) : DecidableRel (simRel sim q) :=
  fun a b => inferInstanceAs (Decidable (sim q b.text ≤ sim q a.text))

/-- Modelled from the spec: Vector Index `search` (§4.2) as delegated to by the
retriever that `as_retriever` returns — entries ordered by descending
similarity with stable ties, truncated to at most `k` results ("returns up to
`k` entries maximized by a similarity metric"; "for k ≥ index size, the full
set is returned ordered by descending similarity", §8).  The library code of
the Chroma search is not part of the repository. -/
def retrieveTopK (sim : String → String → Int) (entries : List Chunk)
    (q : String) (k : Nat) : List Chunk :=
  (List.insertionSort (simRel sim q) entries).take k

/-- Modelled from the spec: the Vector Index search interface (§4.2), which
returns a result sequence and never an error — "if index is empty, returns
empty sequence, not an error"; no `InvalidArgument` guard exists anywhere in
the repository's code. -/
def similaritySearch (sim : String → String → Int) (vs : Vectorstore)
    (q : String) (k : Nat) : Except RagError (List Chunk) :=
  .ok (retrieveTopK sim vs.entries q k)

/-- An apostrophe character, used to spell the prompt template text. -/
def apos : String := String.singleton (Char.ofNat 39)

/-- The prompt template text before the `context` placeholder
(src/imf_rag_system.py lines 118-125). -/
def promptHead : String :=
  "You are an expert economic analyst answering questions about the IMF World Economic Outlook report.\n\nUse the following pieces of context from the report to answer the question at the end.\nIf you don" ++ apos ++ "t know the answer based on the context, say so - don" ++ apos ++ "t make up information.\nAlways cite which part of the report your answer comes from when possible.\n\nContext from IMF Report:\n"

/-- The prompt template text between the `context` and `question`
placeholders (src/imf_rag_system.py lines 125-127). -/
def promptMid : String := "\n\nQuestion: "

/-- The prompt template text after the `question` placeholder
(src/imf_rag_system.py lines 127-129). -/
def promptTail : String := "\n\nDetailed Answer:"

/-- The context string of the "stuff" chain: the page contents of the
retrieved documents joined by blank lines, in retrieval order. -/
def stuffContext (docs : List Chunk) : String :=
  String.intercalate "\n\n" (docs.map Chunk.text)

/-- Substitution of `context` and `question` into the `PromptTemplate` of
src/imf_rag_system.py lines 118-134.  A pure function of its two arguments. -/
def buildPrompt (context question : String) : String :=
  promptHead ++ context ++ promptMid ++ question ++ promptTail

/-- The dict returned by `qa_chain.invoke`: the `result` text and the
`source_documents` list. -/
structure ChainOutput where
  result : String
  source_documents : List Chunk
  deriving Repr, DecidableEq

/-- Modelled from the spec: the `RetrievalQA` chain of type "stuff" configured
at src/imf_rag_system.py lines 137-145, whose library code is not part of the
repository — it retrieves the top-`k` chunks for the query, stuffs their texts
in retrieval order into the prompt template, invokes the language model exactly
once on that prompt, and returns the raw model output together with the
retrieved documents as `source_documents` (§4.4: "returns its raw textual
output as `answer`, paired with the same `retrieved` sequence as `sources`"). -/
def chainInvoke (llm : String → String) (sim : String → String → Int)
    (qc : QAChain) (question : String) : ChainOutput :=
  let retrieved := retrieveTopK sim qc.retrieverStore.entries question qc.k
  { result := llm (buildPrompt (stuffContext retrieved) question)
    source_documents := retrieved }

/-- The dict returned by `IMF_RAG_System.query` (src/imf_rag_system.py lines
178-181). -/
structure QueryResult where
  answer : String
  sources : List Chunk
  deriving Repr, DecidableEq

/-- Embeds `IMF_RAG_System.query` (src/imf_rag_system.py lines 149-181): when
`self.qa_chain` is falsy it raises a plain `Exception`; otherwise it invokes
the chain and passes `result` and `source_documents` through unchanged as
`answer` and `sources`. -/
def query (llm : String → String) (sim : String → String → Int)
    (sys : RagSystem) (question : String) : Except RagError QueryResult :=
  match sys.qa_chain with
  | none => .error (.genericException "QA chain not set up. Run setup_qa_chain() first.")
  | some qc =>
    let r := chainInvoke llm sim qc question
    .ok { answer := r.result, sources := r.source_documents }

/-- Outcome of one iteration of the interactive loop in `main`. -/
inductive StepOutcome where
  | answered (r : QueryResult)
  | reportedError (e : RagError)
  deriving Repr, DecidableEq

/-- Embeds the body of the interactive loop of `main` (src/imf_rag_system.py
lines 242-245): `rag.query(question)` is wrapped in `try/except Exception`, so
every raised error is caught and reported and the loop continues. -/
def mainStep (llm : String → String) (sim : String → String → Int)
    (sys : RagSystem) (question : String) : StepOutcome :=
  match query llm sim sys question with
  | .ok r => .answered r
  | .error e => .reportedError e

/-- Splits a list into consecutive batches of `B` elements each (the last batch
may be shorter), driven by a structural fuel argument. -/
def batchesOfAux (B : Nat) : Nat → List α → List (List α)
  | 0, _ => []
  | _, [] => []
  | fuel + 1, l => l.take B :: batchesOfAux B fuel (l.drop B)

/-- The batches submitted to the embedding provider during a build: the chunk
list cut into runs of the provider's batch size `B`. -/
def batchesOf (B : Nat) (l : List α) : List (List α) :=
  batchesOfAux B l.length l

/-- Modelled from the spec: embedding every batch with the external provider
(§4.2 — "embeds every chunk's text (batched; the Embedding Provider's call
boundary is the unit of batching)").  The provider is an abstract function
from a batch of chunks to either vectors or a failure; the first failing batch
aborts the whole run. -/
def embedBatches (provider : List Chunk → Except Unit (List (List Int))) :
    List (List Chunk) → Except Unit (List (List Int))
  | [] => .ok []
  | bt :: bs =>
    match provider bt with
    | .error e => .error e
    | .ok vs =>
      match embedBatches provider bs with
      | .error e => .error e
      | .ok rest => .ok (vs ++ rest)

/-- Modelled from the spec: the index build performed by
`Chroma.from_documents` at src/imf_rag_system.py lines 88-92, whose library
code is not part of the repository — §4.2: "Fails with `EmbeddingFailure` if
the provider errors on any batch; policy is fail-fast (no partial index is
returned)"; on failure the durable storage at the target location is left
exactly as it was (no partial write), on success the full entry set is
persisted.  The returned pair is (build result, storage contents after the
call). -/
def buildIndex (provider : List Chunk → Except Unit (List (List Int)))
    (B : Nat) (modelId : String) (chunks : List Chunk)
    (storage : Option PersistedStore) :
    Except RagError Vectorstore × Option PersistedStore :=
  match embedBatches provider (batchesOf B chunks) with
  | .error _ => (.error .embeddingFailure, storage)
  | .ok _ =>
    (.ok { entries := chunks, embedModelId := modelId },
     some { builtModelId := modelId, entries := chunks })

/-- Embeds `IMF_RAG_System.load_and_process_pdf` (src/imf_rag_system.py lines
59-94) from the point where the chunk list exists: the build of the vector
store from the chunks (delegated to the spec-modelled `buildIndex`) followed by
the assignment of `self.vectorstore` on success.  The pair is (method result,
storage contents at `persist_directory` after the call). -/
def load_and_process_pdf (provider : List Chunk → Except Unit (List (List Int)))
    (B : Nat) (chunks : List Chunk) (sys : RagSystem)
    (storage : Option PersistedStore) :
    Except RagError RagSystem × Option PersistedStore :=
  match buildIndex provider B configuredModelId chunks storage with
  | (.error e, st) => (.error e, st)
  | (.ok vs, st) => (.ok { sys with vectorstore := some vs }, st)

/-- Modelled from the spec: the Segmenter of §4.1, implemented in the source by
the external `RecursiveCharacterTextSplitter` (src/imf_rag_system.py lines
71-76), whose library code is not part of the repository.  The source text is
one stream of characters; the layered-separator boundary choice ("paragraph
breaks first, then sentence breaks, then whitespace, then hard character
cutoff") is abstracted as a function `next` giving the end position chosen for
the chunk that starts looking at position `p`; per §4.1 "Each new chunk begins
`overlap` characters before the end of the previous chunk's text".  The fuel
argument bounds the recursion; `segment` supplies enough fuel below. -/
def segmentAux (s : List Char) (ov : Nat) (next : Nat → Nat) :
    Nat → Nat → List (List Char)
  | 0, _ => []
  | fuel + 1, p =>
    if next p < s.length then
      ((s.drop p).take (next p - p)) :: segmentAux s ov next fuel (next p - ov)
    else
      [(s.drop p).take (next p - p)]

/-- Modelled from the spec: segmentation of a whole character stream, starting
at position 0 (§4.1). -/
def segment (s : List Char) (ov : Nat) (next : Nat → Nat) : List (List Char) :=
  segmentAux s ov next (s.length + 1) 0

/-- Whether the suffix of `a` of length `ov` coincides with the prefix of `b`
of length `ov`. -/
def sharesOverlap (ov : Nat) (a b : List Char) : Bool :=
  a.drop (a.length - ov) == b.take ov

/-- Whether every pair of consecutive chunks in the list shares an overlap of
`ov` characters (suffix of the earlier equals prefix of the later). -/
def overlapChain (ov : Nat) : List (List Char) → Bool
  | [] => true
  | [_] => true
  | a :: b :: rest => sharesOverlap ov a b && overlapChain ov (b :: rest)

/-- The prompt text constructed inside one chain invocation: a function of the
similarity ranking, the chain configuration and the question only — it takes
no language model argument. -/
def chainPrompt (sim : String → String → Int) (qc : QAChain) (q : String) : String :=
  buildPrompt (stuffContext (retrieveTopK sim qc.retrieverStore.entries q qc.k)) q

/- Concrete fixtures used by witnesses and counterexamples. -/

/-- A language model stub that answers `"A"` to every prompt. -/
def llm0 : String → String := fun _ => "A"

/-- A second language model stub, answering `"B"`. -/
def llm1 : String → String := fun _ => "B"

/-- A similarity stub scoring a chunk by its text length. -/
def sim0 : String → String → Int := fun _ t => Int.ofNat t.length

/-- A second similarity stub scoring every chunk 0. -/
def sim1 : String → String → Int := fun _ _ => 0

/-- Sample chunks. -/
def cA : Chunk := { text := "alpha", page := 0 }

def cB : Chunk := { text := "be", page := 1 }

def cC : Chunk := { text := "gamma", page := 2 }

def cD : Chunk := { text := "delta", page := 3 }

def cE : Chunk := { text := "epsilon", page := 4 }

def cF : Chunk := { text := "zeta", page := 5 }

/-- A one-entry vector store. -/
def vs1 : Vectorstore := { entries := [cA], embedModelId := configuredModelId }

/-- A freshly constructed system (the Unindexed state, as in `main` at
src/imf_rag_system.py line 196). -/
def sysU : RagSystem := mkSystem "imf_weo_ch1_oct2024.pdf" "./chroma_db"

/-- The system after a vector store is present but before `setup_qa_chain`. -/
def sysV1 : RagSystem := { sysU with vectorstore := some vs1 }

/-- The chain over `vs1` with the hardcoded `k = 3`. -/
def qc1 : QAChain := { retrieverStore := vs1, k := 3 }

/-- The Ready system: vector store loaded and QA chain configured. -/
def sysR1 : RagSystem := { sysV1 with qa_chain := some qc1 }

/-- A persisted store whose recorded embedding model differs from the
configured `all-MiniLM-L6-v2`. -/
def mismatchedStore : PersistedStore :=
  { builtModelId := "text-embedding-ada-002", entries := [cA] }

/-- Six chunks, cut into three batches of two by `batchesOf 2`. -/
def sixChunks : List Chunk := [cA, cB, cC, cD, cE, cF]

/-- The second of the three batches of `sixChunks`. -/
def badBatch : List Chunk := [cC, cD]

/-- An embedding provider that fails exactly on batches containing `cC` —
i.e. on batch 2 of 3 of `sixChunks` — and returns no vectors otherwise. -/
def failingProvider : List Chunk → Except Unit (List (List Int)) :=
  fun bt => if cC ∈ bt then .error () else .ok []

/-- C1: for every query executed in the Ready state (QA chain configured), the
`sources` sequence of the returned result is exactly the retrieved chunk
sequence, and the `answer` is the model output on the prompt whose context was
stuffed from that very same sequence — same chunks, same order, same length,
with no reordering or filtering by the synthesizer. -/
theorem c1_sources_unmodified (llm : String → String) (sim : String → String → Int)
    (sys : RagSystem) (qc : QAChain) (q : String)
    (h : sys.qa_chain = some qc) :
    query llm sim sys q =
      .ok { answer := llm (buildPrompt
              (stuffContext (retrieveTopK sim qc.retrieverStore.entries q qc.k)) q)
            sources := retrieveTopK sim qc.retrieverStore.entries q qc.k } := by
  unfold query
  rw [h]
  rfl

/-- Witness for C1: the theorem applied to the concrete Ready system `sysR1`. -/
theorem c1_sources_unmodified_witness :
    query llm0 sim0 sysR1 "q" =
      .ok { answer := llm0 (buildPrompt
              (stuffContext (retrieveTopK sim0 qc1.retrieverStore.entries "q" qc1.k)) "q")
            sources := retrieveTopK sim0 qc1.retrieverStore.entries "q" qc1.k } :=
  c1_sources_unmodified llm0 sim0 sysR1 qc1 "q" rfl

/-- C4: prompt construction is a pure function of the question and the ordered
retrieved chunk sequence: two chain invocations with the same question whose
retrievals return the same ordered sources build byte-identical prompt text,
independently of the language model — and each invocation's answer is its model
applied to exactly that prompt. -/
theorem c4_prompt_pure (llm₁ llm₂ : String → String)
    (sim₁ sim₂ : String → String → Int) (qc₁ qc₂ : QAChain) (q : String)
    (hs : retrieveTopK sim₁ qc₁.retrieverStore.entries q qc₁.k
        = retrieveTopK sim₂ qc₂.retrieverStore.entries q qc₂.k) :
    chainPrompt sim₁ qc₁ q = chainPrompt sim₂ qc₂ q ∧
    (chainInvoke llm₁ sim₁ qc₁ q).result = llm₁ (chainPrompt sim₁ qc₁ q) ∧
    (chainInvoke llm₂ sim₂ qc₂ q).result = llm₂ (chainPrompt sim₂ qc₂ q) := by
  refine ⟨?_, rfl, rfl⟩
  unfold chainPrompt
  rw [hs]

/-- Witness for C4: two invocations over `vs1` with different models and
different similarity stubs retrieve the same single chunk and build the same
prompt. -/
theorem c4_prompt_pure_witness :
    chainPrompt sim0 qc1 "q" = chainPrompt sim1 qc1 "q" ∧
    (chainInvoke llm0 sim0 qc1 "q").result = llm0 (chainPrompt sim0 qc1 "q") ∧
    (chainInvoke llm1 sim1 qc1 "q").result = llm1 (chainPrompt sim1 qc1 "q") :=
  c4_prompt_pure llm0 llm1 sim0 sim1 qc1 qc1 "q" rfl

/-- C5 counterexample: on a freshly constructed (Unindexed) system, `query`
raises the generic exception of src/imf_rag_system.py line 160, which is not
the typed `InvalidState` error the claim names. -/
theorem c5_counterexample :
    query llm0 sim0 sysU "What is the global growth forecast for 2024 and 2025?" =
      .error (.genericException "QA chain not set up. Run setup_qa_chain() first.") ∧
    RagError.genericException "QA chain not set up. Run setup_qa_chain() first." ≠
      RagError.invalidState :=
  ⟨rfl, by decide⟩

/-- C5 amended: calling `query` with no QA chain configured raises a generic
`Exception` (not a typed `InvalidState` error), and the `try/except` wrapper of
`main`'s interactive loop catches it, so the surrounding session is not
crashed. -/
theorem c5_amended_generic_exception (llm : String → String)
    (sim : String → String → Int) (sys : RagSystem) (q : String)
    (h : sys.qa_chain = none) :
    query llm sim sys q =
      .error (.genericException "QA chain not set up. Run setup_qa_chain() first.") ∧
    mainStep llm sim sys q =
      .reportedError (.genericException "QA chain not set up. Run setup_qa_chain() first.") := by
  unfold mainStep query
  rw [h]
  exact ⟨rfl, rfl⟩

/-- Witness for the amended C5: the fresh system `sysU` has no QA chain. -/
theorem c5_amended_generic_exception_witness :
    query llm0 sim0 sysU "q" =
      .error (.genericException "QA chain not set up. Run setup_qa_chain() first.") ∧
    mainStep llm0 sim0 sysU "q" =
      .reportedError (.genericException "QA chain not set up. Run setup_qa_chain() first.") :=
  c5_amended_generic_exception llm0 sim0 sysU "q" rfl

/-- C6 counterexample: loading a persisted index whose recorded embedding model
(`text-embedding-ada-002`) differs from the configured `all-MiniLM-L6-v2`
succeeds anyway — no `EmbeddingModelMismatch` is raised. -/
theorem c6_counterexample :
    mismatchedStore.builtModelId ≠ configuredModelId ∧
    load_existing_vectorstore sysU (some mismatchedStore) =
      .ok { sysU with vectorstore := some { entries := [cA], embedModelId := configuredModelId } } :=
  ⟨by decide, rfl⟩

/-- C6 amended: `load_existing_vectorstore` performs no embedding-model
identity check at all — for every system and every persisted location it
succeeds, attaching the hardcoded configured embedding model, and in
particular never fails with `EmbeddingModelMismatch`. -/
theorem c6_amended_no_mismatch_check (sys : RagSystem) (loc : Option PersistedStore) :
    load_existing_vectorstore sys loc =
      .ok { sys with vectorstore := some (chromaOpen loc configuredModelId) } :=
  rfl

/-- C7 counterexample: loading from an absent location does not fail with
`IndexNotFound`; it returns a system holding a (fresh, empty) index. -/
theorem c7_counterexample :
    load_existing_vectorstore sysU none =
      .ok { sysU with vectorstore := some { entries := [], embedModelId := configuredModelId } } ∧
    load_existing_vectorstore sysU none ≠ .error RagError.indexNotFound :=
  ⟨rfl, fun h => Except.noConfusion h⟩

/-- C7 amended: loading from an absent location never fails with
`IndexNotFound` (the repository defines no such check); the Chroma handle is
created over an empty collection and the load reports success.  `main` only
reaches the load when `os.path.exists(persist_directory)` holds and otherwise
rebuilds (src/imf_rag_system.py lines 199-204). -/
theorem c7_amended_absent_location_ok (sys : RagSystem) :
    load_existing_vectorstore sys none =
      .ok { sys with vectorstore := some { entries := [], embedModelId := configuredModelId } } :=
  rfl

/-- C8 counterexample: a retrieval with `k = 0` does not fail with
`InvalidArgument`: the search returns an empty result sequence. -/
theorem c8_counterexample :
    similaritySearch sim0 vs1 "anything" 0 = .ok [] ∧
    similaritySearch sim0 vs1 "anything" 0 ≠ .error RagError.invalidArgument :=
  ⟨rfl, fun h => Except.noConfusion h⟩

/-- C8 amended: the retriever's `k` is fixed to 3 when the chain is configured
and is not caller-overridable per call (`query` accepts no `k`); no positivity
validation exists, and a search with `k = 0` returns an empty sequence instead
of failing with `InvalidArgument`. -/
theorem c8_amended_k_fixed (sys : RagSystem) (vs : Vectorstore)
    (sim : String → String → Int) (q : String)
    (h : sys.vectorstore = some vs) :
    setup_qa_chain sys =
      .ok { sys with qa_chain := some { retrieverStore := vs, k := 3 } } ∧
    similaritySearch sim vs q 0 = .ok [] := by
  unfold setup_qa_chain
  rw [h]
  exact ⟨rfl, rfl⟩

/-- Witness for the amended C8: applied to the concrete system `sysV1`. -/
theorem c8_amended_k_fixed_witness :
    setup_qa_chain sysV1 =
      .ok { sysV1 with qa_chain := some { retrieverStore := vs1, k := 3 } } ∧
    similaritySearch sim0 vs1 "anything" 0 = .ok [] :=
  c8_amended_k_fixed sysV1 vs1 sim0 "anything" rfl

/-- C10: on every system in the Unindexed state (`vectorstore` is `None`, as
after construction), `setup_qa_chain` dereferences `None` and raises an
untyped `AttributeError` — having built or loaded an index first is an
unchecked precondition. -/
theorem c10_setup_attribute_error (sys : RagSystem)
    (h : sys.vectorstore = none) :
    setup_qa_chain sys =
      .error (.attributeError "NoneType object has no attribute as_retriever") := by
  unfold setup_qa_chain
  rw [h]

/-- Witness for C10: the freshly constructed system `sysU`. -/
theorem c10_setup_attribute_error_witness :
    setup_qa_chain sysU =
      .error (.attributeError "NoneType object has no attribute as_retriever") :=
  c10_setup_attribute_error sysU rfl

/-- C3 counterexample: on a Ready system whose index holds a single chunk, a
query (with the default configuration, no caller-supplied `k`) returns a
`sources` sequence of length 1, not length `k = 3`. -/
theorem c3_counterexample :
    query llm0 sim0 sysR1 "anything" = .ok { answer := "A", sources := [cA] } ∧
    ([cA] : List Chunk).length ≠ 3 :=
  ⟨rfl, by decide⟩

/-- C3 amended: for a query executed on the system configured by
`setup_qa_chain` (no caller-supplied `k` exists), the `sources` sequence has
length `min 3 n` where `n` is the index size, and it is ordered by descending
relevance (each chunk's similarity score is at least the next one's). -/
theorem c3_amended_k_min (llm : String → String) (sim : String → String → Int)
    (sys sys' : RagSystem) (vs : Vectorstore) (q : String) (r : QueryResult)
    (hvs : sys.vectorstore = some vs)
    (hsetup : setup_qa_chain sys = .ok sys')
    (hq : query llm sim sys' q = .ok r) :
    r.sources.length = min 3 vs.entries.length ∧
    r.sources.Pairwise (fun a b => sim q b.text ≤ sim q a.text) := by
  unfold setup_qa_chain at hsetup
  rw [hvs] at hsetup
  injection hsetup with hsys'
  subst hsys'
  unfold query at hq
  simp only at hq
  injection hq with hr
  subst hr
  constructor
  · show (retrieveTopK sim vs.entries q 3).length = min 3 vs.entries.length
    rw [retrieveTopK, List.length_take, List.length_insertionSort]
  · show (retrieveTopK sim vs.entries q 3).Pairwise (fun a b => sim q b.text ≤ sim q a.text)
    haveI : IsTotal Chunk (simRel sim q) :=
      ⟨fun a b => Int.le_total (sim q b.text) (sim q a.text)⟩
    haveI : IsTrans Chunk (simRel sim q) :=
      ⟨fun _ _ _ hab hbc => le_trans hbc hab⟩
    have hsort : (List.insertionSort (simRel sim q) vs.entries).Pairwise (simRel sim q) :=
      List.sorted_insertionSort (simRel sim q) vs.entries
    exact List.Pairwise.sublist (List.take_sublist 3 _) hsort

/-- Witness for the amended C3: on the one-chunk Ready system the sources have
length `min 3 1 = 1` and are trivially relevance-ordered. -/
theorem c3_amended_k_min_witness :
    (QueryResult.mk "A" [cA]).sources.length = min 3 vs1.entries.length ∧
    (QueryResult.mk "A" [cA]).sources.Pairwise
      (fun a b => sim0 "q" b.text ≤ sim0 "q" a.text) :=
  c3_amended_k_min llm0 sim0 sysV1 sysR1 vs1 "q" (QueryResult.mk "A" [cA]) rfl rfl rfl

/-- If the provider fails on any batch of the run, the whole batched embedding
run fails. -/
theorem embedBatches_error_of_mem (provider : List Chunk → Except Unit (List (List Int)))
    (b : List Chunk) :
    ∀ bs : List (List Chunk), b ∈ bs → provider b = .error () →
      embedBatches provider bs = .error () := by
  intro bs
  induction bs with
  | nil => intro h; cases h
  | cons bt rest ih =>
    intro hmem he
    cases hmem with
    | head =>
      unfold embedBatches
      rw [he]
    | tail _ hmem' =>
      have hrest := ih hmem' he
      unfold embedBatches
      rw [hrest]
      cases hp : provider bt with
      | error e => cases e; rfl
      | ok vs => rfl

/-- C9: if the embedding provider fails on some batch of the build, the build
(`load_and_process_pdf`) fails with `EmbeddingFailure`, no vector store is
returned, and the durable storage at the target location is left exactly as it
was before the call — no partial index is persisted. -/
theorem c9_build_failfast (provider : List Chunk → Except Unit (List (List Int)))
    (B : Nat) (chunks : List Chunk) (sys : RagSystem)
    (storage : Option PersistedStore) (b : List Chunk)
    (hb : b ∈ batchesOf B chunks) (he : provider b = .error ()) :
    load_and_process_pdf provider B chunks sys storage =
      (.error .embeddingFailure, storage) := by
  have h := embedBatches_error_of_mem provider b (batchesOf B chunks) hb he
  unfold load_and_process_pdf buildIndex
  rw [h]

/-- Witness for C9: six chunks in three batches of two, with the provider
failing on batch 2 of 3; the build fails and the (empty) storage location
stays empty. -/
theorem c9_build_failfast_witness :
    load_and_process_pdf failingProvider 2 sixChunks sysU none =
      (.error .embeddingFailure, none) :=
  c9_build_failfast failingProvider 2 sixChunks sysU none badBatch (by decide) rfl

/-- A chunk list whose head overlaps with a new chunk prepended in front of it
extends an overlap chain. -/
theorem overlapChain_cons (ov : Nat) (a : List Char) (l : List (List Char))
    (hl : overlapChain ov l = true)
    (hhead : ∀ b, l.head? = some b → sharesOverlap ov a b = true) :
    overlapChain ov (a :: l) = true := by
  cases l with
  | nil => rfl
  | cons b rest =>
    have hb := hhead b rfl
    simp only [overlapChain, hb, hl, Bool.and_self]

/-- Two extracted regions of the same stream share their `ov`-character
overlap: the second region starts `ov` characters before the end of the
first. -/
theorem sharesOverlap_extract (s : List Char) (ov p e e' : Nat)
    (h1 : p + ov ≤ e) (h2 : e ≤ s.length) (h3 : e ≤ e') :
    sharesOverlap ov ((s.drop p).take (e - p))
      ((s.drop (e - ov)).take (e' - (e - ov))) = true := by
  have hlen : ((s.drop p).take (e - p)).length = e - p := by
    rw [List.length_take, List.length_drop]
    omega
  unfold sharesOverlap
  rw [hlen, List.drop_take, List.drop_drop, List.take_take]
  have ha : (e - p) - (e - p - ov) = ov := by omega
  have hb : p + (e - p - ov) = e - ov := by omega
  have hc : min ov (e' - (e - ov)) = ov := by omega
  rw [ha, hb, hc]
  exact beq_self_eq_true _

/-- The first chunk emitted from position `p` is the extract of the stream
from `p` to the chosen end position `next p`. -/
theorem segmentAux_head (s : List Char) (ov : Nat) (next : Nat → Nat)
    (fuel p : Nat) :
    (segmentAux s ov next (fuel + 1) p).head? =
      some ((s.drop p).take (next p - p)) := by
  unfold segmentAux
  split <;> rfl

/-- Every run of the spec-modelled segmenter satisfies the overlap chain
property, as long as every chosen chunk end lies more than `ov` characters
past the chunk start. -/
theorem overlapChain_segmentAux (s : List Char) (ov : Nat) (next : Nat → Nat)
    (hadv : ∀ p, p + ov < next p) :
    ∀ fuel p, overlapChain ov (segmentAux s ov next fuel p) = true := by
  intro fuel
  induction fuel with
  | zero => intro p; rfl
  | succ f ih =>
    intro p
    unfold segmentAux
    by_cases h : next p < s.length
    · rw [if_pos h]
      apply overlapChain_cons
      · exact ih (next p - ov)
      · intro b hb
        cases f with
        | zero => simp [segmentAux] at hb
        | succ g =>
          rw [segmentAux_head] at hb
          injection hb with hb'
          subst hb'
          apply sharesOverlap_extract
          · have := hadv p; omega
          · omega
          · have h1 := hadv (next p - ov)
            have h2 := hadv p
            omega
    · rw [if_neg h]; rfl

/-- C2: for every pair of consecutive chunks produced by the spec-modelled
segmentation of one contiguous stream (each new chunk beginning `overlap`
characters before the end of the previous one, §4.1), the suffix of the
earlier chunk of length `overlap` equals the prefix of the later chunk of
length `overlap` — provided every chunk-boundary choice advances by more than
`overlap` characters. -/
theorem c2_overlap_invariant (s : List Char) (ov : Nat) (next : Nat → Nat)
    (hadv : ∀ p, p + ov < next p) :
    overlapChain ov (segment s ov next) = true :=
  overlapChain_segmentAux s ov next hadv (s.length + 1) 0

/-- Witness for C2: an eight-character stream segmented with `overlap = 2` and
a boundary choice that always advances 4 characters. -/
theorem c2_overlap_invariant_witness :
    overlapChain 2 (segment "abcdefgh".toList 2 (fun p => p + 4)) = true :=
  c2_overlap_invariant "abcdefgh".toList 2 (fun p => p + 4)
    (by intro p; show p + 2 < p + 4; omega)

end IMFRag
